import Mathlib

/-!
Shallow embedding of the Cloudflare Pages worker in
`functions/api/[[catchall]].js` of the `wbchse-hs-result-check-2025`
repository.

The worker is a pure request/response transformer once the outcomes of its
(at most two) downstream `fetch` calls are fixed, so we embed it as total
Lean functions parameterised by those outcomes.  JavaScript-specific
semantics that the handler relies on are modelled explicitly:

* JSON values (`Json`), with member access on `null` throwing a `TypeError`
  (`jsFieldE`), and plain member access on other non-objects yielding
  `undefined` (modelled as `none`);
* truthiness of values (`truthy`);
* string coercion as performed by `RegExp.test` and template literals
  (`jsToStringV`);
* the `+` operator, which concatenates when either operand coerces to a
  string and adds numerically otherwise (`jsAdd`);
* strict equality `===` (`jsStrictEq`); separately parsed arrays/objects are
  never reference-equal, so `===` on them is `false`;
* `toLowerCase()`, which throws on any non-string receiver (`toLowerE`).

Thrown exceptions are modelled with `Except JsError`; the top-level
`onRequest` catch converts an escaping exception into a 500 response, as the
source does.  Both throw sites inside the handlers (destructuring a `null`
request body, and `referralKey.toLowerCase()` on a truthy non-string key)
occur before any downstream call, so the catch branch carries the empty
trace.
-/

set_option autoImplicit false

namespace WbchseWorker

/-- JSON values as produced by `request.json()` / `response.json()`.
Numbers are modelled as integers (all numbers relevant to this worker are
integral). -/
inductive Json where
  | null
  | bool (b : Bool)
  | num (n : Int)
  | str (s : String)
  | arr (elems : List Json)
  | obj (fields : List (String × Json))
deriving Repr

/-- `v === null` as a boolean test (also used for the destructuring guard:
destructuring `null` throws). -/
def isNullJson : Json → Bool
  | Json.null => true
  | _ => false

/-- A thrown JavaScript exception; only its `message` is observable (via the
top-level catch in `onRequest`).  `TypeError` messages are engine specific;
no theorem depends on their text. -/
structure JsError where
  message : String
deriving Repr, DecidableEq

/-- Outcome of one downstream `fetch`: either the promise rejects (network
error), or a response arrives with a status, a status text and — when the
body is valid JSON — its parsed body (`none` means `.json()` throws). -/
inductive FetchOutcome where
  | networkError
  | response (status : Nat) (statusText : String) (body : Option Json)
deriving Repr

/-- `Response.ok`: status in the range 200–299. -/
def respOk (status : Nat) : Bool :=
  200 ≤ status && status ≤ 299

/-- An HTTP response built by the worker: status, serialised JSON body
(`none` is the literal `null` body of the OPTIONS reply), headers. -/
structure HttpResponse where
  status : Nat
  body : Option Json
  headers : List (String × String)
deriving Repr

/-- Which downstream calls a run of a flow performed, and the result-API URL
it requested (when it did). -/
structure FlowTrace where
  calledPaymentDb : Bool
  calledResultApi : Bool
  resultApiUrl : Option String
deriving Repr, DecidableEq

/-- The trace of a run that made no downstream call. -/
def noCalls : FlowTrace := ⟨false, false, none⟩

-- --- Configuration constants from the source ---

def PAYMENT_DB_URL : String := "https://warisha.pw/payments"

def BOARD_API_BASE_URL : String := "https://boardresultapi.abplive.com/wb/2025/12"

/-- `referralButtonMap` object literal (three own properties). -/
def referralButtonMap : List (String × String) :=
  [("subhra", "pl_QRCx74QvShiAil"),
   ("koyel", "pl_QMWdxwIPVZYTpi"),
   ("anwesha", "pl_QRfw57xno82GiV")]

def defaultRazorpayButtonId : String := "pl_QMXOuva67vyoan"

/-- `corsHeaders` object literal. -/
def corsHeaders : List (String × String) :=
  [("Access-Control-Allow-Origin", "*"),
   ("Access-Control-Allow-Methods", "POST, OPTIONS"),
   ("Access-Control-Allow-Headers", "Content-Type")]

/-- `{ ...corsHeaders, 'Content-Type': 'application/json' }`. -/
def jsonHeaders : List (String × String) :=
  corsHeaders ++ [("Content-Type", "application/json")]

-- --- JavaScript value semantics ---

/-- Property read on a value known not to be `null`/`undefined`: own
property of an object, `undefined` (`none`) otherwise.  (Built-in prototype
properties such as `length` are not modelled; none of the property names the
worker reads collides with one.) -/
def jField : Json → String → Option Json
  | Json.obj fields, key => fields.lookup key
  | _, _ => none

/-- Property read that mirrors `v.k` exactly: throws a `TypeError` when the
receiver is `null`. -/
def jFieldE : Json → String → Except JsError (Option Json)
  | Json.null, _ => .error ⟨"TypeError: cannot read properties of null"⟩
  | v, key => .ok (jField v key)

/-- JavaScript truthiness of a possibly-`undefined` value. -/
def truthy : Option Json → Bool
  | none => false
  | some Json.null => false
  | some (Json.bool b) => b
  | some (Json.num n) => n != 0
  | some (Json.str s) => s != ""
  | some (Json.arr _) => true
  | some (Json.obj _) => true

mutual

/-- `ToString` coercion of a JSON value (as used by `RegExp.test` and
template literals): arrays join their elements with `","` (with `null`
elements rendered empty), objects render as `"[object Object]"`. -/
def jsToStringV : Json → String
  | Json.null => "null"
  | Json.bool b => if b then "true" else "false"
  | Json.num n => toString n
  | Json.str s => s
  | Json.arr elems => String.intercalate "," (arrayItemStrings elems)
  | Json.obj _ => "[object Object]"

/-- Element strings for `Array.prototype.join`: `null` renders as `""`. -/
def arrayItemStrings : List Json → List String
  | [] => []
  | Json.null :: rest => "" :: arrayItemStrings rest
  | v :: rest => jsToStringV v :: arrayItemStrings rest

end

/-- `ToString` with `undefined` rendered as `"undefined"`. -/
def jsToStrOpt : Option Json → String
  | none => "undefined"
  | some v => jsToStringV v

/-- `s` consists of exactly `len` ASCII digits: the semantics of
`/^\d{len}$/.test(s)`. -/
def isDigitString (len : Nat) (s : String) : Bool :=
  s.length == len && s.data.all Char.isDigit

/-- `/^\d{len}$/.test(v)` — `test` coerces its argument to a string. -/
def jsTestDigits (len : Nat) (v : Option Json) : Bool :=
  isDigitString len (jsToStrOpt v)

/-- `ToPrimitive` (default hint) restricted to JSON values: arrays and
objects go through their `toString`. -/
def jsToPrimitive : Json → Json
  | Json.arr elems => Json.str (jsToStringV (Json.arr elems))
  | Json.obj fields => Json.str (jsToStringV (Json.obj fields))
  | v => v

/-- `ToNumber` on the primitives that can reach the numeric branch of `+`
(`null`, booleans, numbers; strings are diverted to concatenation first). -/
def jsNumValue : Json → Int
  | Json.num n => n
  | Json.bool true => 1
  | _ => 0

/-- Whether a value is a string. -/
def isStrJson : Json → Bool
  | Json.str _ => true
  | _ => false

/-- The JavaScript `+` operator on JSON values: after `ToPrimitive`, if
either operand is a string the result is the concatenation of both
coercions, otherwise numeric addition. -/
def jsAdd (a b : Json) : Json :=
  let pa := jsToPrimitive a
  let pb := jsToPrimitive b
  if isStrJson pa || isStrJson pb then
    Json.str (jsToStringV pa ++ jsToStringV pb)
  else
    Json.num (jsNumValue pa + jsNumValue pb)

/-- Strict equality `===` between possibly-`undefined` values.  The two
operands the worker ever compares with `===` come from distinct
`JSON.parse` results, so arrays/objects are never reference-equal. -/
def jsStrictEq : Option Json → Option Json → Bool
  | none, none => true
  | some Json.null, some Json.null => true
  | some (Json.bool x), some (Json.bool y) => x == y
  | some (Json.num x), some (Json.num y) => x == y
  | some (Json.str x), some (Json.str y) => x == y
  | _, _ => false

/-- `String.prototype.toLowerCase`, implemented as a character map (the
identifiers this worker compares are ASCII). -/
def jsStrToLower (s : String) : String :=
  ⟨s.data.map Char.toLower⟩

/-- `String.prototype.trim`: strip leading and trailing whitespace. -/
def jsStrTrim (s : String) : String :=
  ⟨((s.data.dropWhile Char.isWhitespace).reverse.dropWhile Char.isWhitespace).reverse⟩

/-- `v.toLowerCase()`: defined on strings, throws a `TypeError` on every
other receiver (including `undefined` and numbers). -/
def toLowerE : Option Json → Except JsError String
  | some (Json.str s) => .ok (jsStrToLower s)
  | _ => .error ⟨"TypeError: toLowerCase is not a function"⟩

/-- Whether a possibly-`undefined` value is a string. -/
def isStrOpt : Option Json → Bool
  | some (Json.str _) => true
  | _ => false

/-- `Array.isArray`. -/
def isArrJson : Json → Bool
  | Json.arr _ => true
  | _ => false

/-- `registration.trim()` for a value known (by the guard order of the
validation condition) to be a string. -/
def jsTrimStr : Option Json → String
  | some (Json.str s) => jsStrTrim s
  | _ => ""

-- --- Shared response builders ---

/-- `new Response(JSON.stringify({ message }), { status, headers:
{ ...corsHeaders, 'Content-Type': 'application/json' } })` with an arbitrary
JSON `message` value. -/
def jsonResponseJ (status : Nat) (message : Json) : HttpResponse :=
  ⟨status, some (Json.obj [("message", message)]), jsonHeaders⟩

/-- The common case of a string message. -/
def jsonResponse (status : Nat) (message : String) : HttpResponse :=
  jsonResponseJ status (Json.str message)

/-- The `errorText` computed for a non-ok upstream result-API response:
start from ``API Error (status): statusText``, then try to replace it with
`errorJson.message` when the body parses as JSON and that property is
truthy (a throw while reading it — body not JSON, or body `null` — is
swallowed by the inner `try`). -/
def upstreamErrorMessage (status : Nat) (statusText : String)
    (mbody : Option Json) : Json :=
  let fallback := Json.str ("API Error (" ++ toString status ++ "): " ++ statusText)
  match mbody with
  | none => fallback
  | some Json.null => fallback
  | some errorJson =>
    match jField errorJson "message" with
    | none => fallback
    | some m => if truthy (some m) then m else fallback

-- --- Validator ---

/-- The validation condition of the details flow (the `if` on line 79):
`!roll || !no || !registration || !/^\d{6}$/.test(roll) ||
!/^\d{4}$/.test(no) || typeof registration !== 'string' ||
registration.trim() === ''`. -/
def detailsInvalid (roll no registration : Option Json) : Bool :=
  !truthy roll || !truthy no || !truthy registration ||
  !jsTestDigits 6 roll || !jsTestDigits 4 no ||
  !isStrOpt registration || jsTrimStr registration == ""

/-- The validation condition of the full-result flow (line 145): the same
checks preceded by `!identifier`. -/
def fullResultInvalid (identifier roll no registration : Option Json) : Bool :=
  !truthy identifier || detailsInvalid roll no registration

-- --- Referral Resolver ---

/-- A value the details flow can end up adopting as
`paymentButtonIdToUse`: one of the own string ids of the map, or a value
inherited from `Object.prototype` — property access on an object literal
walks the prototype chain, so `referralButtonMap[k]` can also yield
`Object.prototype.constructor` (the `Object` function) or the object
`Object.prototype` itself (via the `__proto__` accessor). -/
inductive JsPropValue where
  | str (s : String)
  | objectConstructor
  | objectPrototype
deriving Repr, DecidableEq

/-- `referralButtonMap[k]` for an arbitrary (already lower-cased) key `k`:
an own property when `k` is one of the three entries, otherwise a property
inherited from `Object.prototype`.  The standard `Object.prototype`
property names are `constructor`, `hasOwnProperty`, `isPrototypeOf`,
`propertyIsEnumerable`, `toLocaleString`, `toString`, `valueOf`,
`__proto__`, `__defineGetter__`, `__defineSetter__`, `__lookupGetter__`
and `__lookupSetter__`; since `k` has been lower-cased, the only inherited
names still reachable are the all-lowercase `constructor` and
`__proto__`.  Every other key reads `undefined`. -/
def referralMapGet (k : String) : Option JsPropValue :=
  match referralButtonMap.lookup k with
  | some s => some (JsPropValue.str s)
  | none =>
    if k = "constructor" then some JsPropValue.objectConstructor
    else if k = "__proto__" then some JsPropValue.objectPrototype
    else none

/-- Lines 83–86: `let paymentButtonIdToUse = defaultRazorpayButtonId;
if (referralKey && referralButtonMap[referralKey.toLowerCase()])
  paymentButtonIdToUse = referralButtonMap[referralKey.toLowerCase()];`.
`toLowerCase` throws on a truthy non-string key (the throw escapes the
handler, there is no local catch around these lines).  Every value the
lookup can produce is truthy — the three own ids are non-empty strings,
and both inherited values (a function and a non-null object) are truthy —
so a successful lookup is always adopted, inherited values included. -/
def resolveButtonE (referralKey : Option Json) : Except JsError JsPropValue :=
  if truthy referralKey then
    match toLowerE referralKey with
    | .error e => .error e
    | .ok k =>
      match referralMapGet k with
      | some v => .ok v
      | none => .ok (JsPropValue.str defaultRazorpayButtonId)
  else
    .ok (JsPropValue.str defaultRazorpayButtonId)

-- --- Payment Verifier (full-result flow, step 1) ---

/-- One clause of the record scan of the form
`record.f && record.f.toLowerCase() === normalizedIdentifier`:
falsy field → `false`; truthy non-string field → `TypeError`. -/
def ciClauseE (field : Option Json) (normalizedIdentifier : String) :
    Except JsError Bool :=
  if truthy field then
    match toLowerE field with
    | .error e => .error e
    | .ok s => .ok (s == normalizedIdentifier)
  else
    .ok false

/-- The `some` callback of lines 172–180, for one record.  Reading
`record.roll` throws when the record is `null`; short-circuiting of `&&`
and `||` is preserved, so a clause that is never reached can never throw. -/
def recordMatchesE (normalizedIdentifier : String)
    (identifier roll no : Option Json) (record : Json) : Except JsError Bool :=
  if isNullJson record then
    .error ⟨"TypeError: cannot read properties of null"⟩
  else
    if jsStrictEq (jField record "roll") roll &&
       jsStrictEq (jField record "no") no then
      match ciClauseE (jField record "payment_id") normalizedIdentifier with
      | .error e => .error e
      | .ok true => .ok true
      | .ok false =>
        match ciClauseE (jField record "email") normalizedIdentifier with
        | .error e => .error e
        | .ok true => .ok true
        | .ok false =>
          .ok (truthy (jField record "phone") &&
               jsStrictEq (jField record "phone") identifier)
    else
      .ok false

/-- `paymentData.some(record => ...)`: scan stops at the first match, and a
throw inside the callback aborts the scan. -/
def someMatchE (normalizedIdentifier : String)
    (identifier roll no : Option Json) : List Json → Except JsError Bool
  | [] => .ok false
  | record :: rest =>
    match recordMatchesE normalizedIdentifier identifier roll no record with
    | .error e => .error e
    | .ok true => .ok true
    | .ok false => someMatchE normalizedIdentifier identifier roll no rest

/-- Result of step 1 of the full-result flow: either an early response
(503 / 500 / 403) or a successful verification. -/
inductive VerifyOutcome where
  | earlyResponse (resp : HttpResponse)
  | verified
deriving Repr

/-- Lines 150–189, the `try`/`catch` around the payment-store fetch and the
record scan.  Any throw inside the block — the fetch rejecting, `.json()`
failing, `identifier.toLowerCase()` on a non-string, or a throw inside the
scan callback — is caught locally and answered with the fixed 500
verification-error response. -/
def verifyPayment (identifier roll no : Option Json)
    (paymentFetch : FetchOutcome) : VerifyOutcome :=
  match paymentFetch with
  | .networkError => .earlyResponse (jsonResponse 500 "Error during payment verification.")
  | .response status _statusText mbody =>
    if respOk status then
      match mbody with
      | none => .earlyResponse (jsonResponse 500 "Error during payment verification.")
      | some paymentData =>
        match paymentData with
        | Json.arr records =>
          match toLowerE identifier with
          | .error _ => .earlyResponse (jsonResponse 500 "Error during payment verification.")
          | .ok normalizedIdentifier =>
            match someMatchE normalizedIdentifier identifier roll no records with
            | .error _ => .earlyResponse (jsonResponse 500 "Error during payment verification.")
            | .ok true => .verified
            | .ok false => .earlyResponse (jsonResponse 403 "Verification failed. Payment not found or details mismatch.")
        | _ => .earlyResponse (jsonResponse 500 "Payment data format error.")
    else
      .earlyResponse (jsonResponse 503 "Could not verify details at this time (DB Error).")

-- --- Result Fetcher ---

/-- Serialisation of the adopted button value inside the payload object:
`JSON.stringify` keeps a string id, omits the key entirely when the value
is a function (`Object.prototype.constructor`), and renders
`Object.prototype` — all of whose properties are non-enumerable — as the
empty object. -/
def buttonIdEntry : JsPropValue → List (String × Json)
  | JsPropValue.str s => [("paymentButtonId", Json.str s)]
  | JsPropValue.objectConstructor => []
  | JsPropValue.objectPrototype => [("paymentButtonId", Json.obj [])]

/-- The `{ name, rollNo, regNo, paymentButtonId }` payload of the details
flow.  Reading the three properties off a `null` body throws (caught by the
surrounding `try`); `JSON.stringify` omits keys whose value is
`undefined`. -/
def detailsPayloadE (data : Json) (buttonId : JsPropValue) : Except JsError Json :=
  if isNullJson data then
    .error ⟨"TypeError: cannot read properties of null"⟩
  else
    .ok (Json.obj
      ((match jField data "name" with | none => [] | some v => [("name", v)]) ++
       (match jField data "ROll_No" with | none => [] | some v => [("rollNo", v)]) ++
       (match jField data "Reg_No" with | none => [] | some v => [("regNo", v)]) ++
       buttonIdEntry buttonId))

/-- Lines 92–128: the board-API fetch of the details flow, wrapped in a
`try` whose catch answers 502.  A non-ok status propagates unchanged with
the `upstreamErrorMessage` text; a success status with a non-JSON (or
`null`) body lands in the catch. -/
def detailsFetchStep (apiFetch : FetchOutcome) (buttonId : JsPropValue) : HttpResponse :=
  match apiFetch with
  | .networkError => jsonResponse 502 "Failed to connect to the results service."
  | .response status statusText mbody =>
    if respOk status then
      match mbody with
      | none => jsonResponse 502 "Failed to connect to the results service."
      | some data =>
        match detailsPayloadE data buttonId with
        | .error _ => jsonResponse 502 "Failed to connect to the results service."
        | .ok payload => ⟨200, some payload, jsonHeaders⟩
    else
      jsonResponseJ status (upstreamErrorMessage status statusText mbody)

/-- The fixed message substituted when the result API answers 404 after a
successful payment verification. -/
def resultNotFoundRemapMessage : String :=
  "Result found (payment verified), but could not retrieve full details with the provided Roll, No, and Registration Number. Please check these details or contact support."

/-- Lines 196–238: the board-API fetch of the full-result flow.  Like the
details variant, but an upstream 404 is rewritten to an outward 500 with a
fixed message, and a success body is forwarded verbatim. -/
def fullResultFetchStep (apiFetch : FetchOutcome) : HttpResponse :=
  match apiFetch with
  | .networkError => jsonResponse 502 "Failed to connect to the results service for full details."
  | .response status statusText mbody =>
    if respOk status then
      match mbody with
      | none => jsonResponse 502 "Failed to connect to the results service for full details."
      | some resultData => ⟨200, some resultData, jsonHeaders⟩
    else
      let baseText := upstreamErrorMessage status statusText mbody
      let msg := if status == 404
        then Json.str resultNotFoundRemapMessage
        else baseText
      jsonResponseJ (if status == 404 then 500 else status) msg

-- --- The two flows ---

/-- `handleDetailsRequest`: body parse guard, destructuring (throws on a
`null` body), validation, referral resolution, then the board-API fetch.
`body = none` models `request.json()` throwing (non-JSON body). -/
def handleDetailsRequest (body : Option Json) (apiFetch : FetchOutcome) :
    Except JsError (HttpResponse × FlowTrace) :=
  match body with
  | none => .ok (jsonResponse 400 "Invalid JSON body", noCalls)
  | some requestData =>
    if isNullJson requestData then
      .error ⟨"TypeError: cannot destructure properties of null"⟩
    else
      let roll := jField requestData "roll"
      let no := jField requestData "no"
      let registration := jField requestData "registration"
      let referralKey := jField requestData "referralKey"
      if detailsInvalid roll no registration then
        .ok (jsonResponse 400 "Invalid Roll, No, or Registration Number format. All fields are required.", noCalls)
      else
        match resolveButtonE referralKey with
        | .error e => .error e
        | .ok paymentButtonIdToUse =>
          let apiUrl := BOARD_API_BASE_URL ++ "/" ++
            jsToStringV (jsAdd (roll.getD Json.null) (no.getD Json.null)) ++
            "/" ++ jsTrimStr registration
          .ok (detailsFetchStep apiFetch paymentButtonIdToUse,
               ⟨false, true, some apiUrl⟩)

/-- `handleFullResultRequest`: body parse guard, destructuring, validation,
payment verification (step 1), then the board-API fetch (step 2). -/
def handleFullResultRequest (body : Option Json)
    (paymentFetch resultFetch : FetchOutcome) :
    Except JsError (HttpResponse × FlowTrace) :=
  match body with
  | none => .ok (jsonResponse 400 "Invalid JSON body", noCalls)
  | some requestData =>
    if isNullJson requestData then
      .error ⟨"TypeError: cannot destructure properties of null"⟩
    else
      let identifier := jField requestData "identifier"
      let roll := jField requestData "roll"
      let no := jField requestData "no"
      let registration := jField requestData "registration"
      if fullResultInvalid identifier roll no registration then
        .ok (jsonResponse 400 "Invalid Identifier (Payment ID/Email/Phone), Roll, No, or Registration Number format. All fields are required.", noCalls)
      else
        match verifyPayment identifier roll no paymentFetch with
        | .earlyResponse r => .ok (r, ⟨true, false, none⟩)
        | .verified =>
          let apiUrl := BOARD_API_BASE_URL ++ "/" ++
            jsToStringV (jsAdd (roll.getD Json.null) (no.getD Json.null)) ++
            "/" ++ jsTrimStr registration
          .ok (fullResultFetchStep resultFetch, ⟨true, true, some apiUrl⟩)

/-- Path dispatch of `onRequest` (inside its `try`). -/
def routeFlow (pathname : String) (body : Option Json)
    (paymentFetch resultFetch : FetchOutcome) :
    Except JsError (HttpResponse × FlowTrace) :=
  if pathname = "/api/details" then
    handleDetailsRequest body resultFetch
  else if pathname = "/api/full-result" then
    handleFullResultRequest body paymentFetch resultFetch
  else
    .ok (jsonResponse 404 "Not Found", noCalls)

/-- `onRequest`: OPTIONS short-circuit (a `null`-body response carrying only
`corsHeaders`), 405 for other non-POST methods, dispatch, and the central
catch that turns an escaping exception into a 500 with the exception
message.  Both throw sites precede any downstream call, so the catch branch
reports the empty trace. -/
def onRequest (method pathname : String) (body : Option Json)
    (paymentFetch resultFetch : FetchOutcome) : HttpResponse × FlowTrace :=
  if method = "OPTIONS" then
    (⟨200, none, corsHeaders⟩, noCalls)
  else if method ≠ "POST" then
    (jsonResponse 405 "Method Not Allowed", noCalls)
  else
    match routeFlow pathname body paymentFetch resultFetch with
    | .ok result => result
    | .error e => (jsonResponse 500 e.message, noCalls)

-- --- Specification-level predicates (stated from the documented matching
-- rules, to be compared with the scan the code performs) ---

/-- Case-insensitive equality of an optional record field with the supplied
identifier, as the specification states it: the field is a string whose
lower-casing equals the identifier's lower-casing. -/
def ciEqField : Option Json → String → Bool
  | some (Json.str s), identifier => jsStrToLower s == jsStrToLower identifier
  | _, _ => false

/-- The specification's per-record verification condition: the record's
`roll` and `no` fields are strictly equal to the request's, and the
supplied identifier equals the record's `payment_id` or `email`
case-insensitively, or its `phone` case-sensitively. -/
def specMatches (identifier : String) (roll no : Option Json) (record : Json) : Bool :=
  jsStrictEq (jField record "roll") roll &&
  jsStrictEq (jField record "no") no &&
  (ciEqField (jField record "payment_id") identifier ||
   ciEqField (jField record "email") identifier ||
   jsStrictEq (jField record "phone") (some (Json.str identifier)))

/-- A field of a payment record is absent, `null`, or a string. -/
def stringOrAbsent : Option Json → Bool
  | none => true
  | some Json.null => true
  | some (Json.str _) => true
  | _ => false

/-- A well-formed payment record per the documented data model: a JSON
object whose `payment_id` and `email` fields, when present, are strings (or
`null`).  (The `phone` field needs no constraint: the scan never calls a
method on it.) -/
def wfRecord (record : Json) : Bool :=
  match record with
  | Json.obj _ =>
    stringOrAbsent (jField record "payment_id") &&
    stringOrAbsent (jField record "email")
  | _ => false

-- --- Concrete fixtures used to instantiate hypotheses ---

/-- A validated full-result request body. -/
def sampleFullBody : Json := Json.obj
  [("identifier", Json.str "Test@X.com"), ("roll", Json.str "123456"),
   ("no", Json.str "1234"), ("registration", Json.str " REG1 ")]

/-- A payment record matching `sampleFullBody` through its email,
case-insensitively. -/
def sampleRecord : Json := Json.obj
  [("roll", Json.str "123456"), ("no", Json.str "1234"),
   ("email", Json.str "test@x.COM")]

/-- A validated details request body carrying a referral key. -/
def sampleDetailsBody : Json := Json.obj
  [("roll", Json.str "123456"), ("no", Json.str "1234"),
   ("registration", Json.str "REG1"), ("referralKey", Json.str "KOYEL")]

/-- A full-result request body whose `roll` and `no` are JSON numbers. -/
def numericFieldsBody : Json := Json.obj
  [("identifier", Json.str "x"), ("roll", Json.num 123456),
   ("no", Json.num 1234), ("registration", Json.str "REG")]

/-- A payment record matching `numericFieldsBody` through its phone. -/
def numericFieldsRecord : Json := Json.obj
  [("roll", Json.num 123456), ("no", Json.num 1234), ("phone", Json.str "x")]

/-- A full-result request body whose identifier is a truthy non-string. -/
def numericIdentifierBody : Json := Json.obj
  [("identifier", Json.num 5), ("roll", Json.str "123456"),
   ("no", Json.str "1234"), ("registration", Json.str "R")]

/-- `sampleFullBody` with a different registration number. -/
def sampleFullBodyAltReg : Json := Json.obj
  [("identifier", Json.str "Test@X.com"), ("roll", Json.str "123456"),
   ("no", Json.str "1234"), ("registration", Json.str "OTHER")]

-- --- Helper lemmas ---

theorem jsStrToLower_ne_empty (s : String) (h : s ≠ "") : jsStrToLower s ≠ "" := by
  intro hc
  apply h
  have hd : s.data.map Char.toLower = [] := congrArg String.data hc
  have : s.data = [] := by simpa using hd
  cases s
  simp_all

/-- On a well-formed field the guarded case-insensitive clause of the scan
never throws, and computes exactly the specification's case-insensitive
equality (the guard only skips falsy fields, which can never equal a
non-empty identifier). -/
theorem ciClauseE_eq_spec (identifier : String) (hid : identifier ≠ "")
    (f : Option Json) (hwf : stringOrAbsent f = true) :
    ciClauseE f (jsStrToLower identifier) = .ok (ciEqField f identifier) := by
  match f with
  | none => rfl
  | some Json.null => rfl
  | some (Json.str s) =>
    by_cases hs : s = ""
    · subst hs
      have hne : jsStrToLower identifier ≠ "" := jsStrToLower_ne_empty identifier hid
      have hlow : jsStrToLower "" = "" := rfl
      simp [ciClauseE, truthy, ciEqField, hlow]
      intro hc
      exact absurd hc.symm hne
    · simp [ciClauseE, truthy, hs, toLowerE, ciEqField]
  | some (Json.bool b) => simp [stringOrAbsent] at hwf
  | some (Json.num n) => simp [stringOrAbsent] at hwf
  | some (Json.arr l) => simp [stringOrAbsent] at hwf
  | some (Json.obj l) => simp [stringOrAbsent] at hwf

/-- The truthiness guard on the phone clause is redundant once the
identifier is non-empty: strict equality with a non-empty string already
forces the field to be that (truthy) string. -/
theorem phoneClause_eq (identifier : String) (hid : identifier ≠ "")
    (ph : Option Json) :
    (truthy ph && jsStrictEq ph (some (Json.str identifier))) =
      jsStrictEq ph (some (Json.str identifier)) := by
  match ph with
  | none => rfl
  | some Json.null => rfl
  | some (Json.bool b) => simp [truthy, jsStrictEq]
  | some (Json.num n) => simp [truthy, jsStrictEq]
  | some (Json.arr l) => rfl
  | some (Json.obj l) => rfl
  | some (Json.str x) =>
    by_cases hx : x = identifier
    · subst hx
      simp [truthy, jsStrictEq, hid]
    · simp [truthy, jsStrictEq, hx]

/-- On a well-formed record the scan callback never throws and computes the
specification's per-record condition. -/
theorem recordMatchesE_eq_spec (identifier : String) (hid : identifier ≠ "")
    (roll no : Option Json) (record : Json) (hwf : wfRecord record = true) :
    recordMatchesE (jsStrToLower identifier) (some (Json.str identifier)) roll no record =
      .ok (specMatches identifier roll no record) := by
  match record with
  | Json.null => simp [wfRecord] at hwf
  | Json.bool b => simp [wfRecord] at hwf
  | Json.num n => simp [wfRecord] at hwf
  | Json.str s => simp [wfRecord] at hwf
  | Json.arr l => simp [wfRecord] at hwf
  | Json.obj fields =>
    simp only [wfRecord, Bool.and_eq_true] at hwf
    obtain ⟨hpid, hemail⟩ := hwf
    rw [recordMatchesE]
    rw [if_neg (by simp [isNullJson])]
    by_cases hrn : (jsStrictEq (jField (Json.obj fields) "roll") roll &&
        jsStrictEq (jField (Json.obj fields) "no") no) = true
    · rw [if_pos hrn]
      rw [ciClauseE_eq_spec identifier hid _ hpid,
          ciClauseE_eq_spec identifier hid _ hemail]
      simp only [Bool.and_eq_true] at hrn
      by_cases h1 : ciEqField (jField (Json.obj fields) "payment_id") identifier = true
      · simp [specMatches, hrn.1, hrn.2, h1]
      · rw [Bool.not_eq_true] at h1
        by_cases h2 : ciEqField (jField (Json.obj fields) "email") identifier = true
        · simp [specMatches, hrn.1, hrn.2, h1, h2]
        · rw [Bool.not_eq_true] at h2
          rw [h1, h2]
          simp only [specMatches, hrn.1, hrn.2, h1, h2, Bool.true_and,
            Bool.false_or]
          rw [phoneClause_eq identifier hid]
    · rw [if_neg hrn]
      rw [Bool.not_eq_true, Bool.and_eq_false_iff] at hrn
      rcases hrn with hrn | hrn <;> simp [specMatches, hrn]

/-- Over a list of well-formed records the scan never throws and computes
whether some record satisfies the specification's condition. -/
theorem someMatchE_eq_any (identifier : String) (hid : identifier ≠ "")
    (roll no : Option Json) (records : List Json)
    (hwf : ∀ r ∈ records, wfRecord r = true) :
    someMatchE (jsStrToLower identifier) (some (Json.str identifier)) roll no records =
      .ok (records.any (specMatches identifier roll no)) := by
  induction records with
  | nil => rfl
  | cons record rest ih =>
    have hr : wfRecord record = true := hwf record (List.mem_cons_self record rest)
    have hrest : ∀ r ∈ rest, wfRecord r = true :=
      fun r hmem => hwf r (List.mem_cons_of_mem record hmem)
    rw [someMatchE, recordMatchesE_eq_spec identifier hid roll no record hr]
    by_cases hm : specMatches identifier roll no record = true
    · simp [hm]
    · rw [Bool.not_eq_true] at hm
      simp only [hm, List.any_cons, Bool.false_or]
      exact ih hrest

/-- Step 1 of the full-result flow, for a string identifier, a successful
payment-store response carrying a JSON array of well-formed records:
verification succeeds exactly when some record satisfies the
specification's condition, and otherwise answers the fixed 403. -/
theorem verifyPayment_ok_array (identifier : String) (hid : identifier ≠ "")
    (roll no : Option Json) (st : Nat) (stx : String) (records : List Json)
    (hok : respOk st = true) (hwf : ∀ r ∈ records, wfRecord r = true) :
    verifyPayment (some (Json.str identifier)) roll no
        (.response st stx (some (Json.arr records))) =
      (if records.any (specMatches identifier roll no) then .verified
       else .earlyResponse (jsonResponse 403 "Verification failed. Payment not found or details mismatch.")) := by
  rw [verifyPayment]
  rw [if_pos hok]
  show (match someMatchE (jsStrToLower identifier) (some (Json.str identifier)) roll no records with
    | .error _ => VerifyOutcome.earlyResponse (jsonResponse 500 "Error during payment verification.")
    | .ok true => VerifyOutcome.verified
    | .ok false => VerifyOutcome.earlyResponse (jsonResponse 403 "Verification failed. Payment not found or details mismatch.")) = _
  rw [someMatchE_eq_any identifier hid roll no records hwf]
  by_cases hm : records.any (specMatches identifier roll no) = true
  · simp [hm]
  · rw [Bool.not_eq_true] at hm
    simp [hm]

theorem onRequest_post_details (body : Option Json) (pf rf : FetchOutcome) :
    onRequest "POST" "/api/details" body pf rf =
      (match handleDetailsRequest body rf with
       | .ok result => result
       | .error e => (jsonResponse 500 e.message, noCalls)) := rfl

theorem onRequest_post_full (body : Option Json) (pf rf : FetchOutcome) :
    onRequest "POST" "/api/full-result" body pf rf =
      (match handleFullResultRequest body pf rf with
       | .ok result => result
       | .error e => (jsonResponse 500 e.message, noCalls)) := rfl

/-- The downstream URL both flows build from a validated body. -/
def builtApiUrl (rd : Json) : String :=
  BOARD_API_BASE_URL ++ "/" ++
    jsToStringV (jsAdd ((jField rd "roll").getD Json.null)
      ((jField rd "no").getD Json.null)) ++ "/" ++
    jsTrimStr (jField rd "registration")

theorem handleFull_valid (rd : Json) (pf rf : FetchOutcome)
    (hnn : isNullJson rd = false)
    (hval : fullResultInvalid (jField rd "identifier") (jField rd "roll")
      (jField rd "no") (jField rd "registration") = false) :
    handleFullResultRequest (some rd) pf rf =
      (match verifyPayment (jField rd "identifier") (jField rd "roll")
          (jField rd "no") pf with
       | .earlyResponse r => .ok (r, ⟨true, false, none⟩)
       | .verified =>
         .ok (fullResultFetchStep rf, ⟨true, true, some (builtApiUrl rd)⟩)) := by
  simp only [handleFullResultRequest, hnn, hval, builtApiUrl]
  rfl

theorem handleDetails_valid (rd : Json) (rf : FetchOutcome)
    (hnn : isNullJson rd = false)
    (hval : detailsInvalid (jField rd "roll") (jField rd "no")
      (jField rd "registration") = false) :
    handleDetailsRequest (some rd) rf =
      (match resolveButtonE (jField rd "referralKey") with
       | .error e => .error e
       | .ok bid =>
         .ok (detailsFetchStep rf bid, ⟨false, true, some (builtApiUrl rd)⟩)) := by
  simp only [handleDetailsRequest, hnn, hval, builtApiUrl]
  rfl

theorem fullResultInvalid_false_parts (i r n g : Option Json)
    (h : fullResultInvalid i r n g = false) :
    truthy i = true ∧ detailsInvalid r n g = false := by
  simp only [fullResultInvalid, Bool.or_eq_false_iff, Bool.not_eq_true'] at h
  obtain ⟨h1, h2⟩ := h
  exact ⟨by simpa using h1, h2⟩

theorem truthy_str_ne_empty (s : String) (h : truthy (some (Json.str s)) = true) :
    s ≠ "" := by
  simpa [truthy] using h

/-- If a run of the full-result flow on a parsed body performed the
result-API call, its response is the step-2 response for that fetch and its
trace records both calls and the built URL. -/
theorem handleFull_some_calledApi (rd : Json) (pf rf : FetchOutcome)
    (resp : HttpResponse) (tr : FlowTrace)
    (h : handleFullResultRequest (some rd) pf rf = .ok (resp, tr))
    (hc : tr.calledResultApi = true) :
    resp = fullResultFetchStep rf ∧ tr = ⟨true, true, some (builtApiUrl rd)⟩ := by
  simp only [handleFullResultRequest] at h
  split at h
  · exact Except.noConfusion h
  · split at h
    · simp only [Except.ok.injEq, Prod.mk.injEq] at h
      obtain ⟨h1, h2⟩ := h
      rw [← h2] at hc
      simp [noCalls] at hc
    · split at h
      · simp only [Except.ok.injEq, Prod.mk.injEq] at h
        obtain ⟨h1, h2⟩ := h
        rw [← h2] at hc
        simp at hc
      · simp only [Except.ok.injEq, Prod.mk.injEq] at h
        obtain ⟨h1, h2⟩ := h
        exact ⟨h1.symm, by rw [← h2]; rfl⟩

/-- Same characterisation for the details flow: a run that performed the
board-API call produced the fetch-step response for some resolved button id
and recorded the built URL. -/
theorem handleDetails_some_calledApi (rd : Json) (rf : FetchOutcome)
    (resp : HttpResponse) (tr : FlowTrace)
    (h : handleDetailsRequest (some rd) rf = .ok (resp, tr))
    (hc : tr.calledResultApi = true) :
    (∃ bid, resolveButtonE (jField rd "referralKey") = .ok bid ∧
      resp = detailsFetchStep rf bid) ∧
    tr = ⟨false, true, some (builtApiUrl rd)⟩ := by
  simp only [handleDetailsRequest] at h
  split at h
  · exact Except.noConfusion h
  · split at h
    · simp only [Except.ok.injEq, Prod.mk.injEq] at h
      obtain ⟨h1, h2⟩ := h
      rw [← h2] at hc
      simp [noCalls] at hc
    · split at h
      · exact Except.noConfusion h
      · rename_i bid hbid
        simp only [Except.ok.injEq, Prod.mk.injEq] at h
        obtain ⟨h1, h2⟩ := h
        exact ⟨⟨bid, hbid, h1.symm⟩, by rw [← h2]; rfl⟩

-- --- Claim theorems ---

/-- C1: In the full-result flow, for a validated request whose identifier is
a (necessarily non-empty) string and a fetched payment-record list of
well-formed records, verification succeeds — the flow proceeds to the
result API — exactly when some record has `roll` and `no` strictly equal to
the request's and its `payment_id` or `email` equal to the identifier
case-insensitively or its `phone` equal to it case-sensitively; when no
record matches, the flow answers the fixed 403 without calling the result
API. -/
theorem C1_full_result_verification_iff (rd : Json) (identifier : String)
    (st : Nat) (stx : String) (records : List Json) (rf : FetchOutcome)
    (hnn : isNullJson rd = false)
    (hident : jField rd "identifier" = some (Json.str identifier))
    (hval : fullResultInvalid (jField rd "identifier") (jField rd "roll")
      (jField rd "no") (jField rd "registration") = false)
    (hok : respOk st = true)
    (hwf : ∀ r ∈ records, wfRecord r = true) :
    ((onRequest "POST" "/api/full-result" (some rd)
        (.response st stx (some (Json.arr records))) rf).2.calledResultApi =
      records.any (specMatches identifier (jField rd "roll") (jField rd "no")))
    ∧ (records.any (specMatches identifier (jField rd "roll") (jField rd "no")) = false →
       (onRequest "POST" "/api/full-result" (some rd)
          (.response st stx (some (Json.arr records))) rf).1 =
         jsonResponse 403 "Verification failed. Payment not found or details mismatch." ∧
       (onRequest "POST" "/api/full-result" (some rd)
          (.response st stx (some (Json.arr records))) rf).2.calledResultApi = false) := by
  have htr : truthy (some (Json.str identifier)) = true := by
    have := (fullResultInvalid_false_parts _ _ _ _ hval).1
    rwa [hident] at this
  have hid : identifier ≠ "" := truthy_str_ne_empty identifier htr
  rw [onRequest_post_full, handleFull_valid rd _ rf hnn hval, hident,
    verifyPayment_ok_array identifier hid _ _ st stx records hok hwf]
  by_cases hm : records.any (specMatches identifier (jField rd "roll") (jField rd "no")) = true
  · simp [hm]
  · rw [Bool.not_eq_true] at hm
    simp [hm]

/-- C1 witness: a concrete validated request whose identifier matches the
sole fetched record's email case-insensitively; verification succeeds. -/
theorem C1_full_result_verification_iff_witness :
    (onRequest "POST" "/api/full-result" (some sampleFullBody)
        (.response 200 "OK" (some (Json.arr [sampleRecord])))
        FetchOutcome.networkError).2.calledResultApi = true :=
  (C1_full_result_verification_iff sampleFullBody "Test@X.com" 200 "OK"
    [sampleRecord] FetchOutcome.networkError rfl rfl (by decide) (by decide)
    (by decide)).1.trans (by decide)

theorem detailsInvalid_of_claim (roll no registration : Option Json)
    (h : ¬ jsTestDigits 6 roll = true ∨ ¬ jsTestDigits 4 no = true ∨
      ¬ (isStrOpt registration = true ∧ jsTrimStr registration ≠ "")) :
    detailsInvalid roll no registration = true := by
  rcases h with h | h | h
  · rw [Bool.not_eq_true] at h
    simp [detailsInvalid, h]
  · rw [Bool.not_eq_true] at h
    simp [detailsInvalid, h]
  · rw [not_and_or] at h
    rcases h with h | h
    · rw [Bool.not_eq_true] at h
      simp [detailsInvalid, h]
    · rw [not_ne_iff] at h
      simp [detailsInvalid, h]

/-- C2 (amended: the body must parse to a value other than `null` — a JSON
`null` body throws while destructuring and yields a 500 through the central
catch): for every such body, if `roll` fails the six-digit test or `no`
fails the four-digit test or `registration` is not a string with non-empty
trim (or, in the full-result flow, `identifier` is absent), the flow
answers 400 with its fixed descriptive message and performs no downstream
call. -/
theorem C2_validation_rejects (rd : Json) (pf rf : FetchOutcome)
    (hnn : isNullJson rd = false) :
    ((¬ jsTestDigits 6 (jField rd "roll") = true ∨
      ¬ jsTestDigits 4 (jField rd "no") = true ∨
      ¬ (isStrOpt (jField rd "registration") = true ∧
         jsTrimStr (jField rd "registration") ≠ "")) →
      onRequest "POST" "/api/details" (some rd) pf rf =
        (jsonResponse 400 "Invalid Roll, No, or Registration Number format. All fields are required.", noCalls))
    ∧ ((¬ jsTestDigits 6 (jField rd "roll") = true ∨
        ¬ jsTestDigits 4 (jField rd "no") = true ∨
        ¬ (isStrOpt (jField rd "registration") = true ∧
           jsTrimStr (jField rd "registration") ≠ "") ∨
        jField rd "identifier" = none) →
      onRequest "POST" "/api/full-result" (some rd) pf rf =
        (jsonResponse 400 "Invalid Identifier (Payment ID/Email/Phone), Roll, No, or Registration Number format. All fields are required.", noCalls)) := by
  constructor
  · intro h
    have hinv := detailsInvalid_of_claim _ _ _ h
    rw [onRequest_post_details]
    simp [handleDetailsRequest, hnn, hinv]
  · intro h
    have hinv : fullResultInvalid (jField rd "identifier") (jField rd "roll")
        (jField rd "no") (jField rd "registration") = true := by
      rcases h with h | h | h | h
      · simp [fullResultInvalid, detailsInvalid_of_claim _ _ _ (Or.inl h)]
      · simp [fullResultInvalid, detailsInvalid_of_claim _ _ _ (Or.inr (Or.inl h))]
      · simp [fullResultInvalid, detailsInvalid_of_claim _ _ _ (Or.inr (Or.inr h))]
      · simp [fullResultInvalid, h, truthy]
    rw [onRequest_post_full]
    simp [handleFullResultRequest, hnn, hinv]

/-- C2 counterexample: the body `null` parses as JSON and its (absent)
`roll` fails the six-digit test, yet the details flow answers 500 — the
destructuring throw reaches the central catch — not the claimed 400. -/
theorem C2_counterexample :
    jsTestDigits 6 (jField Json.null "roll") = false ∧
    (onRequest "POST" "/api/details" (some Json.null)
      FetchOutcome.networkError FetchOutcome.networkError).1.status = 500 ∧
    (500 : Nat) ≠ 400 :=
  ⟨rfl, rfl, by decide⟩

/-- C2 witness: a body with a two-digit roll is rejected with 400 by the
details flow. -/
theorem C2_validation_rejects_witness :
    onRequest "POST" "/api/details" (some (Json.obj [("roll", Json.str "12")]))
        FetchOutcome.networkError FetchOutcome.networkError =
      (jsonResponse 400 "Invalid Roll, No, or Registration Number format. All fields are required.", noCalls) :=
  (C2_validation_rejects (Json.obj [("roll", Json.str "12")])
    FetchOutcome.networkError FetchOutcome.networkError rfl).1
    (Or.inl (by decide))

/-- C3: whenever the full-result flow performed the step-2 result fetch
(i.e. payment verification succeeded) and the upstream answered a
non-success status, the flow propagates that status and a message, except
that an upstream 404 is rewritten to an outward 500 carrying the fixed
"payment verified but details not found" message. -/
theorem C3_upstream_status_propagation (body : Option Json) (pf : FetchOutcome)
    (st : Nat) (stx : String) (mb : Option Json)
    (hok : respOk st = false)
    (hc : (onRequest "POST" "/api/full-result" body pf
      (.response st stx mb)).2.calledResultApi = true) :
    (onRequest "POST" "/api/full-result" body pf (.response st stx mb)).1 =
      jsonResponseJ (if st == 404 then 500 else st)
        (if st == 404 then Json.str resultNotFoundRemapMessage
         else upstreamErrorMessage st stx mb) := by
  rw [onRequest_post_full] at hc ⊢
  cases body with
  | none => simp [handleFullResultRequest, noCalls] at hc
  | some rd =>
    cases hh : handleFullResultRequest (some rd) pf (.response st stx mb) with
    | error e =>
      rw [hh] at hc
      simp [noCalls] at hc
    | ok result =>
      obtain ⟨resp, tr⟩ := result
      rw [hh] at hc
      obtain ⟨h1, _⟩ := handleFull_some_calledApi rd pf _ resp tr hh hc
      show resp = _
      rw [h1]
      simp [fullResultFetchStep, hok]

/-- C3 witness: with a verified payment and an upstream 404, the outward
response is the 500 remap with the fixed message. -/
theorem C3_upstream_status_propagation_witness :
    (onRequest "POST" "/api/full-result" (some sampleFullBody)
        (.response 200 "OK" (some (Json.arr [sampleRecord])))
        (.response 404 "Not Found" none)).1 =
      jsonResponseJ 500 (Json.str resultNotFoundRemapMessage) := by
  have h := C3_upstream_status_propagation (some sampleFullBody)
    (.response 200 "OK" (some (Json.arr [sampleRecord]))) 404 "Not Found" none
    (by decide) (by decide)
  simpa using h

/-- C4 counterexample: the key `"constructor"` is not one of the three
table entries, yet the lookup walks the prototype chain and yields the
truthy inherited `Object.prototype.constructor`, which the code adopts —
so the resolved value is not the fixed default button id. -/
theorem C4_counterexample :
    resolveButtonE (some (Json.str "constructor")) =
      .ok JsPropValue.objectConstructor ∧
    referralButtonMap.lookup "constructor" = none ∧
    JsPropValue.objectConstructor ≠ JsPropValue.str defaultRazorpayButtonId :=
  ⟨rfl, rfl, by decide⟩

/-- C4 (amended: property access walks the prototype chain, so besides the
three table entries the lower-cased keys `"constructor"` and `"__proto__"`
also hit — truthy inherited — values, which the code adopts in place of a
button id): for every referral key that is a string or absent, resolution
never fails, and yields the value of the prototype-aware lookup of the
lower-cased key, falling back to the fixed default id exactly when that
lookup misses. -/
theorem C4_referral_resolution (key : Option String) :
    resolveButtonE (key.map Json.str) =
      .ok (match key with
           | none => JsPropValue.str defaultRazorpayButtonId
           | some s => (referralMapGet (jsStrToLower s)).getD
               (JsPropValue.str defaultRazorpayButtonId)) := by
  cases key with
  | none => rfl
  | some s =>
    by_cases hs : s = ""
    · subst hs
      rfl
    · have htr : truthy (some (Json.str s)) = true := by simp [truthy, hs]
      show resolveButtonE (some (Json.str s)) = _
      rw [resolveButtonE, if_pos htr]
      show (match referralMapGet (jsStrToLower s) with
            | some v => Except.ok v
            | none => Except.ok (JsPropValue.str defaultRazorpayButtonId)) = _
      cases hlook : referralMapGet (jsStrToLower s) <;> simp [hlook]

/-- C5 counterexample: with `roll` and `no` both JSON numbers the request
passes validation and verification, but the `+` between them performs
numeric addition (123456 + 1234 = 124690), so the downstream path segment
is not the concatenation of their string forms. -/
theorem C5_counterexample :
    jsToStrOpt (jField numericFieldsBody "roll") ++
      jsToStrOpt (jField numericFieldsBody "no") = "1234561234" ∧
    (onRequest "POST" "/api/full-result" (some numericFieldsBody)
        (.response 200 "OK" (some (Json.arr [numericFieldsRecord])))
        FetchOutcome.networkError).2.resultApiUrl =
      some "https://boardresultapi.abplive.com/wb/2025/12/124690/REG" ∧
    some "https://boardresultapi.abplive.com/wb/2025/12/124690/REG" ≠
      some ("https://boardresultapi.abplive.com/wb/2025/12/" ++ "1234561234" ++ "/REG") := by
  refine ⟨by decide, by decide, by decide⟩

/-- C5 (amended: the `roll` and `no` fields must be strings — when both are
JSON numbers, `+` adds them numerically instead of concatenating): whenever
either flow performed the result-API call, the URL it requested is the base
URL, `/`, the concatenation of roll and no, `/`, and the trimmed
registration. -/
theorem C5_url_construction (rd : Json) (pf rf : FetchOutcome) (rs ns : String)
    (hroll : jField rd "roll" = some (Json.str rs))
    (hno : jField rd "no" = some (Json.str ns)) :
    ((onRequest "POST" "/api/details" (some rd) pf rf).2.calledResultApi = true →
      (onRequest "POST" "/api/details" (some rd) pf rf).2.resultApiUrl =
        some (BOARD_API_BASE_URL ++ "/" ++ (rs ++ ns) ++ "/" ++
          jsTrimStr (jField rd "registration")))
    ∧ ((onRequest "POST" "/api/full-result" (some rd) pf rf).2.calledResultApi = true →
      (onRequest "POST" "/api/full-result" (some rd) pf rf).2.resultApiUrl =
        some (BOARD_API_BASE_URL ++ "/" ++ (rs ++ ns) ++ "/" ++
          jsTrimStr (jField rd "registration"))) := by
  constructor
  · rw [onRequest_post_details]
    intro hc
    cases hh : handleDetailsRequest (some rd) rf with
    | error e =>
      rw [hh] at hc
      simp [noCalls] at hc
    | ok result =>
      obtain ⟨resp, tr⟩ := result
      rw [hh] at hc
      obtain ⟨_, h2⟩ := handleDetails_some_calledApi rd rf resp tr hh hc
      show tr.resultApiUrl = _
      rw [h2]
      show some (builtApiUrl rd) = _
      rw [builtApiUrl, hroll, hno]
      rfl
  · rw [onRequest_post_full]
    intro hc
    cases hh : handleFullResultRequest (some rd) pf rf with
    | error e =>
      rw [hh] at hc
      simp [noCalls] at hc
    | ok result =>
      obtain ⟨resp, tr⟩ := result
      rw [hh] at hc
      obtain ⟨_, h2⟩ := handleFull_some_calledApi rd pf rf resp tr hh hc
      show tr.resultApiUrl = _
      rw [h2]
      show some (builtApiUrl rd) = _
      rw [builtApiUrl, hroll, hno]
      rfl

/-- C5 witness: a validated details request with string roll `"123456"` and
no `"1234"` requests the concatenated path. -/
theorem C5_url_construction_witness :
    (onRequest "POST" "/api/details" (some sampleDetailsBody)
        FetchOutcome.networkError FetchOutcome.networkError).2.resultApiUrl =
      some (BOARD_API_BASE_URL ++ "/" ++ ("123456" ++ "1234") ++ "/" ++
        jsTrimStr (jField sampleDetailsBody "registration")) :=
  (C5_url_construction sampleDetailsBody FetchOutcome.networkError
    FetchOutcome.networkError "123456" "1234" rfl rfl).1 (by decide)

/-- C6: a payment-store response that is valid JSON but not an array makes
the full-result flow answer 500 with the fixed format-error message,
without proceeding to the record scan or the result fetch. -/
theorem C6_payment_data_not_array (rd : Json) (st : Nat) (stx : String)
    (pd : Json) (rf : FetchOutcome)
    (hnn : isNullJson rd = false)
    (hval : fullResultInvalid (jField rd "identifier") (jField rd "roll")
      (jField rd "no") (jField rd "registration") = false)
    (hok : respOk st = true)
    (harr : isArrJson pd = false) :
    onRequest "POST" "/api/full-result" (some rd)
        (.response st stx (some pd)) rf =
      (jsonResponse 500 "Payment data format error.", ⟨true, false, none⟩) := by
  rw [onRequest_post_full, handleFull_valid rd _ rf hnn hval]
  have hv : verifyPayment (jField rd "identifier") (jField rd "roll")
      (jField rd "no") (.response st stx (some pd)) =
      .earlyResponse (jsonResponse 500 "Payment data format error.") := by
    rw [verifyPayment, if_pos hok]
    cases pd
    case arr => simp [isArrJson] at harr
    all_goals first | rfl | (intro elems h; exact Json.noConfusion h)
  rw [hv]

/-- C6 witness: a JSON object payment-store body yields the 500
format-error response. -/
theorem C6_payment_data_not_array_witness :
    onRequest "POST" "/api/full-result" (some sampleFullBody)
        (.response 200 "OK" (some (Json.obj []))) FetchOutcome.networkError =
      (jsonResponse 500 "Payment data format error.", ⟨true, false, none⟩) :=
  C6_payment_data_not_array sampleFullBody 200 "OK" (Json.obj [])
    FetchOutcome.networkError rfl (by decide) (by decide) rfl

/-- C7: the payment-verification outcome does not depend on the
registration field: two validated full-result requests agreeing on
identifier, roll and no — but with arbitrary, possibly different,
registrations — produce the same response and the same
did-we-reach-the-result-API outcome against the same fetched data. -/
theorem C7_registration_independence (rd1 rd2 : Json) (pf rf : FetchOutcome)
    (hnn1 : isNullJson rd1 = false) (hnn2 : isNullJson rd2 = false)
    (hident : jField rd1 "identifier" = jField rd2 "identifier")
    (hroll : jField rd1 "roll" = jField rd2 "roll")
    (hno : jField rd1 "no" = jField rd2 "no")
    (hval1 : fullResultInvalid (jField rd1 "identifier") (jField rd1 "roll")
      (jField rd1 "no") (jField rd1 "registration") = false)
    (hval2 : fullResultInvalid (jField rd2 "identifier") (jField rd2 "roll")
      (jField rd2 "no") (jField rd2 "registration") = false) :
    ((onRequest "POST" "/api/full-result" (some rd1) pf rf).1 =
      (onRequest "POST" "/api/full-result" (some rd2) pf rf).1) ∧
    ((onRequest "POST" "/api/full-result" (some rd1) pf rf).2.calledResultApi =
      (onRequest "POST" "/api/full-result" (some rd2) pf rf).2.calledResultApi) := by
  rw [onRequest_post_full, onRequest_post_full,
    handleFull_valid rd1 pf rf hnn1 hval1, handleFull_valid rd2 pf rf hnn2 hval2,
    hident, hroll, hno]
  cases verifyPayment (jField rd2 "identifier") (jField rd2 "roll")
      (jField rd2 "no") pf <;>
    exact ⟨rfl, rfl⟩

/-- C7 witness: the same request with registrations `" REG1 "` and `"OTHER"`
yields the same response against the same payment data. -/
theorem C7_registration_independence_witness :
    (onRequest "POST" "/api/full-result" (some sampleFullBody)
        (.response 200 "OK" (some (Json.arr [sampleRecord])))
        FetchOutcome.networkError).1 =
      (onRequest "POST" "/api/full-result" (some sampleFullBodyAltReg)
        (.response 200 "OK" (some (Json.arr [sampleRecord])))
        FetchOutcome.networkError).1 :=
  (C7_registration_independence sampleFullBody sampleFullBodyAltReg
    (.response 200 "OK" (some (Json.arr [sampleRecord])))
    FetchOutcome.networkError rfl rfl rfl rfl rfl (by decide) (by decide)).1

/-- C9: a truthy non-string identifier passes field validation, and the
subsequent `toLowerCase` throw is caught by the verification-step catch, so
the flow answers the 500 verification-error envelope (not a 400). -/
theorem C9_non_string_identifier (rd idv : Json) (st : Nat) (stx : String)
    (records : List Json) (rf : FetchOutcome)
    (hnn : isNullJson rd = false)
    (hval : fullResultInvalid (jField rd "identifier") (jField rd "roll")
      (jField rd "no") (jField rd "registration") = false)
    (hident : jField rd "identifier" = some idv)
    (hnstr : isStrJson idv = false)
    (hok : respOk st = true) :
    onRequest "POST" "/api/full-result" (some rd)
        (.response st stx (some (Json.arr records))) rf =
      (jsonResponse 500 "Error during payment verification.", ⟨true, false, none⟩) := by
  rw [onRequest_post_full, handleFull_valid rd _ rf hnn hval, hident]
  have ht : toLowerE (some idv) =
      .error ⟨"TypeError: toLowerCase is not a function"⟩ := by
    cases idv <;> first | rfl | (simp [isStrJson] at hnstr)
  have hv : verifyPayment (some idv) (jField rd "roll") (jField rd "no")
      (.response st stx (some (Json.arr records))) =
      .earlyResponse (jsonResponse 500 "Error during payment verification.") := by
    rw [verifyPayment, if_pos hok, ht]
  rw [hv]

/-- C9 witness: identifier `5` (a JSON number) with otherwise valid fields
and a good payment store produces the 500 verification-error response. -/
theorem C9_non_string_identifier_witness :
    onRequest "POST" "/api/full-result" (some numericIdentifierBody)
        (.response 200 "OK" (some (Json.arr []))) FetchOutcome.networkError =
      (jsonResponse 500 "Error during payment verification.", ⟨true, false, none⟩) :=
  C9_non_string_identifier numericIdentifierBody (Json.num 5) 200 "OK" []
    FetchOutcome.networkError rfl (by decide) rfl rfl (by decide)

/-- C10: in the details flow a successful upstream response whose JSON
object lacks `name`, `ROll_No` and `Reg_No` still yields a 200; the absent
fields are simply omitted from the serialised payload (which then carries
only the resolved payment button id). -/
theorem C10_missing_upstream_fields (rd : Json) (bid : String)
    (dataFields : List (String × Json)) (st : Nat) (stx : String)
    (pf : FetchOutcome)
    (hnn : isNullJson rd = false)
    (hval : detailsInvalid (jField rd "roll") (jField rd "no")
      (jField rd "registration") = false)
    (hbtn : resolveButtonE (jField rd "referralKey") = Except.ok (JsPropValue.str bid))
    (hok : respOk st = true)
    (hname : dataFields.lookup "name" = none)
    (hrollno : dataFields.lookup "ROll_No" = none)
    (hregno : dataFields.lookup "Reg_No" = none) :
    (onRequest "POST" "/api/details" (some rd) pf
        (.response st stx (some (Json.obj dataFields)))).1 =
      ⟨200, some (Json.obj [("paymentButtonId", Json.str bid)]), jsonHeaders⟩ := by
  rw [onRequest_post_details, handleDetails_valid rd _ hnn hval, hbtn]
  show detailsFetchStep (.response st stx (some (Json.obj dataFields)))
    (JsPropValue.str bid) = _
  rw [detailsFetchStep, if_pos hok]
  have hp : detailsPayloadE (Json.obj dataFields) (JsPropValue.str bid) =
      .ok (Json.obj [("paymentButtonId", Json.str bid)]) := by
    rw [detailsPayloadE, if_neg (by simp [isNullJson])]
    simp only [jField, hname, hrollno, hregno, List.nil_append, buttonIdEntry]
  rw [hp]

/-- C10 witness: an upstream object with none of the three fields, a
referral key resolving to the Koyel button id. -/
theorem C10_missing_upstream_fields_witness :
    (onRequest "POST" "/api/details" (some sampleDetailsBody)
        FetchOutcome.networkError
        (.response 200 "OK" (some (Json.obj [("foo", Json.num 1)])))).1 =
      ⟨200, some (Json.obj [("paymentButtonId", Json.str "pl_QMWdxwIPVZYTpi")]),
        jsonHeaders⟩ :=
  C10_missing_upstream_fields sampleDetailsBody "pl_QMWdxwIPVZYTpi"
    [("foo", Json.num 1)] 200 "OK" FetchOutcome.networkError rfl (by decide)
    rfl (by decide) rfl rfl rfl

theorem detailsFetchStep_headers (f : FetchOutcome) (bid : JsPropValue) :
    (detailsFetchStep f bid).headers = jsonHeaders := by
  rw [detailsFetchStep.eq_def]
  repeat' split
  all_goals rfl

theorem fullResultFetchStep_headers (f : FetchOutcome) :
    (fullResultFetchStep f).headers = jsonHeaders := by
  rw [fullResultFetchStep.eq_def]
  repeat' split
  all_goals rfl

theorem verifyPayment_early_headers (i r n : Option Json) (pf : FetchOutcome)
    (resp : HttpResponse) (h : verifyPayment i r n pf = .earlyResponse resp) :
    resp.headers = jsonHeaders := by
  rw [verifyPayment.eq_def] at h
  repeat' split at h
  all_goals first
    | exact VerifyOutcome.noConfusion h
    | (injection h with h2; rw [← h2]; rfl)

theorem handleDetails_ok_headers (body : Option Json) (rf : FetchOutcome)
    (resp : HttpResponse) (tr : FlowTrace)
    (h : handleDetailsRequest body rf = .ok (resp, tr)) :
    resp.headers = jsonHeaders := by
  cases body with
  | none =>
    rw [handleDetailsRequest] at h
    injection h with h2
    injection h2 with hx hy
    rw [← hx]
    rfl
  | some rd =>
    simp only [handleDetailsRequest] at h
    split at h
    · exact Except.noConfusion h
    · split at h
      · injection h with h2
        injection h2 with hx hy
        rw [← hx]
        rfl
      · cases hb : resolveButtonE (jField rd "referralKey") with
        | error e =>
          rw [hb] at h
          exact Except.noConfusion h
        | ok bid =>
          rw [hb] at h
          injection h with h2
          injection h2 with hx hy
          rw [← hx]
          exact detailsFetchStep_headers rf bid

theorem handleFull_ok_headers (body : Option Json) (pf rf : FetchOutcome)
    (resp : HttpResponse) (tr : FlowTrace)
    (h : handleFullResultRequest body pf rf = .ok (resp, tr)) :
    resp.headers = jsonHeaders := by
  cases body with
  | none =>
    rw [handleFullResultRequest] at h
    injection h with h2
    injection h2 with hx hy
    rw [← hx]
    rfl
  | some rd =>
    simp only [handleFullResultRequest] at h
    split at h
    · exact Except.noConfusion h
    · split at h
      · injection h with h2
        injection h2 with hx hy
        rw [← hx]
        rfl
      · cases hv : verifyPayment (jField rd "identifier") (jField rd "roll")
            (jField rd "no") pf with
        | earlyResponse r =>
          rw [hv] at h
          injection h with h2
          injection h2 with hx hy
          rw [← hx]
          exact verifyPayment_early_headers _ _ _ pf r hv
        | verified =>
          rw [hv] at h
          injection h with h2
          injection h2 with hx hy
          rw [← hx]
          exact fullResultFetchStep_headers rf

theorem routeFlow_ok_headers (pathname : String) (body : Option Json)
    (pf rf : FetchOutcome) (resp : HttpResponse) (tr : FlowTrace)
    (h : routeFlow pathname body pf rf = .ok (resp, tr)) :
    resp.headers = jsonHeaders := by
  rw [routeFlow] at h
  split at h
  · exact handleDetails_ok_headers body rf resp tr h
  · split at h
    · exact handleFull_ok_headers body pf rf resp tr h
    · injection h with h2
      injection h2 with hx hy
      rw [← hx]
      rfl

/-- The headers of every response `onRequest` produces: the bare CORS
headers for OPTIONS, the CORS headers plus the JSON content type for
everything else. -/
theorem onRequest_headers (method pathname : String) (body : Option Json)
    (pf rf : FetchOutcome) :
    (onRequest method pathname body pf rf).1.headers =
      (if method = "OPTIONS" then corsHeaders else jsonHeaders) := by
  rw [onRequest]
  by_cases hm : method = "OPTIONS"
  · rw [if_pos hm, if_pos hm]
  · rw [if_neg hm, if_neg hm]
    by_cases hp : method ≠ "POST"
    · rw [if_pos hp]
      rfl
    · rw [if_neg hp]
      cases hr : routeFlow pathname body pf rf with
      | error e => rfl
      | ok result =>
        obtain ⟨resp, tr⟩ := result
        exact routeFlow_ok_headers pathname body pf rf resp tr hr

/-- C8 (amended: the OPTIONS preflight response carries only the
cross-origin headers, with no content type): every response carries the
three fixed cross-origin headers, and every non-OPTIONS response
additionally carries the JSON content type. -/
theorem C8_response_headers (method pathname : String) (body : Option Json)
    (pf rf : FetchOutcome) :
    (∀ hdr ∈ corsHeaders, hdr ∈ (onRequest method pathname body pf rf).1.headers)
    ∧ (method ≠ "OPTIONS" →
       ("Content-Type", "application/json") ∈
         (onRequest method pathname body pf rf).1.headers) := by
  rw [onRequest_headers]
  by_cases hm : method = "OPTIONS"
  · rw [if_pos hm]
    exact ⟨fun hdr hmem => hmem, fun hc => absurd hm hc⟩
  · rw [if_neg hm]
    constructor
    · intro hdr hmem
      exact List.mem_append_left _ hmem
    · intro _
      simp [jsonHeaders, corsHeaders]

/-- C8 counterexample: the OPTIONS response carries exactly the three
cross-origin headers — it has no JSON content type. -/
theorem C8_counterexample :
    (onRequest "OPTIONS" "/api/details" none FetchOutcome.networkError
      FetchOutcome.networkError).1.headers = corsHeaders ∧
    ("Content-Type", "application/json") ∉
      (onRequest "OPTIONS" "/api/details" none FetchOutcome.networkError
        FetchOutcome.networkError).1.headers :=
  ⟨rfl, by decide⟩

/-- C8 witness: a POST response carries the JSON content type. -/
theorem C8_response_headers_witness :
    ("Content-Type", "application/json") ∈
      (onRequest "POST" "/api/details" none FetchOutcome.networkError
        FetchOutcome.networkError).1.headers :=
  (C8_response_headers "POST" "/api/details" none FetchOutcome.networkError
    FetchOutcome.networkError).2 (by decide)

end WbchseWorker
